import Mathlib

/-!
Shallow embedding of the assignment middleware in src/middleware/app.py.

The coordination store (Redis) is modelled as explicit state: the
assignment queue is a list of task ids, locks / cooldowns / counters are
association lists, and the in-process mirror (the Python dict
assignment_queue) is carried alongside.  Time is not modelled, so TTLs
(3600 s locks, 1800 s cooldowns, 86400 s counters) appear only as
presence or absence of the corresponding key; monetary amounts and audio
durations are rationals instead of floats (the claims under study do not
hinge on float rounding).  The external task source is passed in as data:
its unlabeled id list as a `List Nat` and its per-task metadata as a
function argument.  Every Python operation that the claims mention is
translated line by line below.
-/

/-- Association-list lookup, first binding wins (models a Redis GET). -/
def alookup {β : Type} (k : Nat) : List (Nat × β) → Option β
  | [] => none
  | (k2, v) :: rest => if k2 = k then some v else alookup k rest

/-- Association-list overwrite (models a Redis SET / SETEX). -/
def aset {β : Type} (k : Nat) (v : β) (l : List (Nat × β)) : List (Nat × β) :=
  (k, v) :: l.filter (fun p => !decide (p.1 = k))

/-- Association-list delete (models a Redis DEL). -/
def adel {β : Type} (k : Nat) (l : List (Nat × β)) : List (Nat × β) :=
  l.filter (fun p => !decide (p.1 = k))

/-- Idempotent set insertion (models a Python set add). -/
def insertNat (t : Nat) (l : List Nat) : List Nat :=
  if t ∈ l then l else t :: l

/-- Session status values stored in the transcription_sessions table. -/
inductive SessStatus
  | assigned
  | completed
  | skipped
deriving DecidableEq, Repr

/-- One row of the transcription_sessions table (timestamps omitted,
they never influence control flow in the claims). -/
structure Session where
  agent_id : Nat
  task_id : Nat
  duration_seconds : Option Rat
  status : SessStatus
  transcription_length : Option Nat
  skip_reason : Option String
deriving DecidableEq, Repr

/-- One row of the agent_stats table (last_active and the created/updated
timestamps omitted). -/
structure AgentStats where
  total_duration_seconds : Rat
  total_tasks_completed : Nat
  total_tasks_skipped : Nat
  total_earnings : Rat
deriving DecidableEq, Repr

/-- A fresh AgentStats row, as created with the column defaults. -/
def defaultStats : AgentStats :=
  { total_duration_seconds := 0
    total_tasks_completed := 0
    total_tasks_skipped := 0
    total_earnings := 0 }

/-- The task payload returned by request_task and cached in
agent:active:{A}. -/
structure TaskData where
  task_id : Nat
  audio_url : String
  duration : Option Rat
  metadata : String
deriving DecidableEq, Repr

/-- Combined middleware state: Redis keys, the in-process mirror of the
queue, the SQL tables and the audit lists, plus the annotations that the
external task source has accepted. -/
structure St where
  /-- Redis list assignment_queue. -/
  queue : List Nat
  /-- In-memory mirror: the Python list in the assignment_queue dict. -/
  memTasks : List Nat
  /-- In-memory completed_tasks set. -/
  completedTasks : List Nat
  /-- Redis keys of the shape task:locked:T, value is the holding agent. -/
  locks : List (Nat × Nat)
  /-- Redis keys of the shape task:skipped:T:A as (T, A) pairs. -/
  skips : List (Nat × Nat)
  /-- Redis keys of the shape task:global_skips:T, value is the counter. -/
  globalSkips : List (Nat × Nat)
  /-- Redis keys of the shape agent:active:A, value is the cached task. -/
  active : List (Nat × TaskData)
  /-- transcription_sessions rows, in insertion order. -/
  sessions : List Session
  /-- agent_stats rows keyed by agent id. -/
  stats : List (Nat × AgentStats)
  /-- Annotations the external task source has accepted, as (task, text). -/
  annotations : List (Nat × String)
  /-- Redis list audit:assignments as (agent, task). -/
  auditAssignments : List (Nat × Nat)
  /-- Redis list audit:completions as (agent, task). -/
  auditCompletions : List (Nat × Nat)
  /-- Redis list audit:skips as (agent, task). -/
  auditSkips : List (Nat × Nat)
deriving DecidableEq, Repr

/-- GET task:global_skips:T with the tonumber(... or 0) default of the
Lua script. -/
def getGlobalSkips (st : St) (t : Nat) : Nat :=
  (alookup t st.globalSkips).getD 0

/-- Result alphabet of the atomic Lua script in request_task_for_agent. -/
inductive ScriptResult
  | scriptNone
  | disabled
  | wasSkipped
  | wasLocked
  | task (t : Nat)
deriving DecidableEq, Repr

/-- The atomic Lua script run by request_task_for_agent
(src/middleware/app.py lines 332-369): LPOP the queue head, drop it when
the global skip counter reached 5, re-enqueue and report SKIPPED under a
live per-agent cooldown, otherwise try SET NX on the lock and either hand
the task out or re-enqueue and report LOCKED. -/
def luaScript (agent : Nat) (st : St) : ScriptResult × St :=
  match st.queue with
  | [] => (.scriptNone, st)
  | t :: rest =>
    if 5 ≤ getGlobalSkips st t then
      (.disabled, { st with queue := rest })
    else if (t, agent) ∈ st.skips then
      (.wasSkipped, { st with queue := rest ++ [t] })
    else
      match alookup t st.locks with
      | some _ => (.wasLocked, { st with queue := rest ++ [t] })
      | none => (.task t, { st with queue := rest, locks := (t, agent) :: st.locks })

/-- The engine iteration exactly as the claim words it: pop the head,
NONE on empty, DISABLED without re-enqueue at counter 5 or more, SKIPPED
with tail re-enqueue under a cooldown, the task itself when the
conditional lock set succeeds, LOCKED with tail re-enqueue otherwise.
Written from the specification text, to be compared with luaScript. -/
def engineStepClaim (agent : Nat) (st : St) : ScriptResult × St :=
  match st.queue with
  | [] => (.scriptNone, st)
  | t :: rest =>
    if 5 ≤ getGlobalSkips st t then
      (.disabled, { st with queue := rest })
    else if (t, agent) ∈ st.skips then
      (.wasSkipped, { st with queue := rest ++ [t] })
    else if (alookup t st.locks).isNone then
      (.task t, { st with queue := rest, locks := (t, agent) :: st.locks })
    else
      (.wasLocked, { st with queue := rest ++ [t] })

/-- The fresh id list a reconciliation builds: the unlabeled ids reported
by the external task source minus the in-process completed set
(src/middleware/app.py lines 86-89). -/
def freshIds (ls : List Nat) (st : St) : List Nat :=
  ls.filter (fun t => !decide (t ∈ st.completedTasks))

/-- One successful run of sync_assignment_queue (src/middleware/app.py
lines 71-127): replace the Redis queue by delete-then-rpush of the
filtered fresh list and mirror the same list in memory.  The syncing
guard, logging and the stats cache are not modelled; no claim mentions
them. -/
def sync_assignment_queue (ls : List Nat) (st : St) : St :=
  { st with queue := freshIds ls st, memTasks := freshIds ls st }

/-- remove_task_from_queue (src/middleware/app.py lines 143-159): erase
the first in-memory occurrence when present, LREM 0 on the Redis list
(all occurrences), and add the id to the completed set. -/
def remove_task_from_queue (t : Nat) (st : St) : St :=
  { st with
    memTasks := st.memTasks.erase t
    queue := st.queue.filter (fun x => !decide (x = t))
    completedTasks := insertNat t st.completedTasks }

/-- The per-id removal loop of the in-loop refill: Python list.remove
raises ValueError on a missing element, which aborts the handler before
the Redis pipeline executes.  Returns the mirror after the removals that
did run, and whether every removal succeeded. -/
def removeEach (ids : List Nat) (mem : List Nat) : List Nat × Bool :=
  match ids with
  | [] => (mem, true)
  | t :: ts => if t ∈ mem then removeEach ts (mem.erase t) else (mem, false)

/-- The refill step at the top of each retry-loop iteration
(src/middleware/app.py lines 317-329): when the Redis queue is empty,
rpush the first up-to-10 ids of the snapshot into it and remove them from
the live in-memory mirror.  The Bool is false when a removal raised, in
which case the pipeline never executed and the handler returns 500. -/
def refillStep (avail : List Nat) (st : St) : St × Bool :=
  if st.queue.isEmpty then
    let ids := avail.take 10
    match removeEach ids st.memTasks with
    | (mem2, true) =>
      if 0 < ids.length then ({ st with memTasks := mem2, queue := st.queue ++ ids }, true)
      else ({ st with memTasks := mem2 }, true)
    | (mem2, false) => ({ st with memTasks := mem2 }, false)
  else (st, true)

/-- The audio URL placed into the task payload
(src/middleware/app.py line 400). -/
def streamUrl (t agent : Nat) : String :=
  "/api/audio/stream/" ++ toString t ++ "/" ++ toString agent

/-- Create-if-absent upsert of an agent_stats row at assignment time
(src/middleware/app.py lines 424-434); only last_active changes on an
existing row, which this timeless model does not track. -/
def touchStats (a : Nat) (stats : List (Nat × AgentStats)) : List (Nat × AgentStats) :=
  match alookup a stats with
  | some _ => stats
  | none => (a, defaultStats) :: stats

/-- The success branch of the retry loop (src/middleware/app.py lines
383-447): build the payload from the best-effort metadata fetch `info`,
cache it under agent:active:A, insert an assigned session row, upsert the
agent_stats row and append to the assignment audit list. -/
def successAssign (info : Nat → Option Rat × String) (agent u : Nat) (st : St) :
    TaskData × St :=
  let d : TaskData :=
    { task_id := u
      audio_url := streamUrl u agent
      duration := (info u).1
      metadata := (info u).2 }
  (d,
    { st with
      active := aset agent d st.active
      sessions := st.sessions ++
        [{ agent_id := agent
           task_id := u
           duration_seconds := (info u).1
           status := .assigned
           transcription_length := none
           skip_reason := none }]
      stats := touchStats agent st.stats
      auditAssignments := (agent, u) :: st.auditAssignments })

/-- Outcomes of request_task_for_agent, matching the four exits of the
handler: a payload, the empty-queue 404, the exhausted-retries 404, and
the 500 produced when the refill raises ValueError. -/
inductive ReqResult
  | ok (d : TaskData)
  | emptyQueue404
  | exhausted404
  | err500
deriving DecidableEq, Repr

/-- The bounded retry loop of request_task_for_agent
(src/middleware/app.py lines 316-454): refill when the store list is
empty, run the atomic script, break to the exhausted 404 on NONE, retry
on SKIPPED, LOCKED and DISABLED, and take the success branch on a task
id.  `avail` is the snapshot list taken before the loop; the Python code
never refreshes it. -/
def assignLoop (info : Nat → Option Rat × String) (agent : Nat) (avail : List Nat) :
    Nat → St → ReqResult × St
  | 0, st => (.exhausted404, st)
  | fuel + 1, st =>
    match refillStep avail st with
    | (st1, false) => (.err500, st1)
    | (st1, true) =>
      match luaScript agent st1 with
      | (.scriptNone, st2) => (.exhausted404, st2)
      | (.wasSkipped, st2) => assignLoop info agent avail fuel st2
      | (.wasLocked, st2) => assignLoop info agent avail fuel st2
      | (.disabled, st2) => assignLoop info agent avail fuel st2
      | (.task u, st2) =>
        let r := successAssign info agent u st2
        (.ok r.1, r.2)

/-- request_task_for_agent (src/middleware/app.py lines 266-463): return
the cached active assignment unchanged when present; otherwise snapshot
the in-memory mirror, and when it is empty run a synchronous
reconciliation, re-check, consult the task source directly (`ls`) and
force one more reconciliation when the source is non-empty, returning the
empty-queue 404 when the mirror is still empty; then enter the 50-attempt
retry loop. -/
def request_task_for_agent (info : Nat → Option Rat × String) (ls : List Nat)
    (agent : Nat) (st : St) : ReqResult × St :=
  match alookup agent st.active with
  | some d => (.ok d, st)
  | none =>
    if st.memTasks.isEmpty then
      let st1 := sync_assignment_queue ls st
      if st1.memTasks.isEmpty then
        if ls.isEmpty then (.emptyQueue404, st1)
        else
          let st2 := sync_assignment_queue ls st1
          if st2.memTasks.isEmpty then (.emptyQueue404, st2)
          else assignLoop info agent st2.memTasks 50 st2
      else assignLoop info agent st1.memTasks 50 st1
    else assignLoop info agent st.memTasks 50 st

/-- Outcomes of submit_transcription: success, the 403 for a non-holder,
the 500 raised when the task source refuses the annotation, as in
src/middleware/app.py lines 555-655. -/
inductive SubmitResult
  | success
  | forbidden
  | upstreamError
deriving DecidableEq, Repr

/-- The earnings rate applied on submit, $0.45 per minute
(src/middleware/app.py line 623). -/
def ratePerMinute : Rat := 45 / 100

/-- The matching-session query of submit and skip: all rows for
(agent, task) still in the assigned state
(src/middleware/app.py lines 594-601). -/
def matchingAssigned (a t : Nat) (ss : List Session) : List Session :=
  ss.filter (fun s =>
    decide (s.agent_id = a) && decide (s.task_id = t) && decide (s.status = SessStatus.assigned))

/-- Flip every matching assigned row to completed and record the
transcription length (src/middleware/app.py lines 606-611). -/
def flipCompleted (a t : Nat) (len : Nat) (ss : List Session) : List Session :=
  ss.map (fun s =>
    if s.agent_id = a ∧ s.task_id = t ∧ s.status = SessStatus.assigned then
      { s with status := .completed, transcription_length := some len }
    else s)

/-- The ledger part of a successful submit (src/middleware/app.py lines
593-626): when matching assigned rows exist they are all flipped to
completed, and the aggregate row is bumped only when it exists and the
duration of the last matching row is non-null and nonzero (Python
truthiness of session.duration_seconds).  Returns the new sessions table
and the new agent_stats table. -/
def submitLedger (a t len : Nat) (ss : List Session) (gs : List (Nat × AgentStats)) :
    List Session × List (Nat × AgentStats) :=
  let ms := matchingAssigned a t ss
  if ms.isEmpty then (ss, gs)
  else
    let ss2 := flipCompleted a t len ss
    match ms.getLast?, alookup a gs with
    | some lastRow, some ag =>
      match lastRow.duration_seconds with
      | some d =>
        if d = 0 then (ss2, gs)
        else
          let ag2 : AgentStats :=
            { ag with
              total_duration_seconds := ag.total_duration_seconds + d
              total_tasks_completed := ag.total_tasks_completed + 1
              total_earnings := ag.total_earnings + d / 60 * ratePerMinute }
          (ss2, aset a ag2 gs)
      | none => (ss2, gs)
    | _, _ => (ss2, gs)

/-- submit_transcription (src/middleware/app.py lines 555-655).  The
upstream POST outcome is the Boolean `upstreamOk` (2xx or not); a
refusal aborts with 500 before any state change.  On success the
annotation is recorded upstream, the ledger is updated, the lock and
active keys are deleted, the completion is audited and the task is
removed from the queue. -/
def submit_transcription (upstreamOk : Bool) (a t : Nat) (text : String) (st : St) :
    SubmitResult × St :=
  match alookup t st.locks with
  | none => (.forbidden, st)
  | some holder =>
    if holder = a then
      if upstreamOk then
        let lg := submitLedger a t text.length st.sessions st.stats
        (.success, remove_task_from_queue t
          { st with
            annotations := (t, text) :: st.annotations
            sessions := lg.1
            stats := lg.2
            locks := adel t st.locks
            active := adel a st.active
            auditCompletions := (a, t) :: st.auditCompletions })
      else (.upstreamError, st)
    else (.forbidden, st)

/-- Outcomes of skip_task (src/middleware/app.py lines 657-750). -/
inductive SkipResult
  | success
  | forbidden
deriving DecidableEq, Repr

/-- The skip reason actually stored: the Python expression
skip_data.reason or a default, where None and the empty string are both
falsy (src/middleware/app.py line 709). -/
def effectiveReason (reason : Option String) : String :=
  match reason with
  | some r => if r = "" then "No reason provided" else r
  | none => "No reason provided"

/-- Flip every matching assigned row to skipped with the stored reason
(src/middleware/app.py lines 705-709). -/
def flipSkipped (a t : Nat) (reason : String) (ss : List Session) : List Session :=
  ss.map (fun s =>
    if s.agent_id = a ∧ s.task_id = t ∧ s.status = SessStatus.assigned then
      { s with status := .skipped, skip_reason := some reason }
    else s)

/-- INCR on task:global_skips:T, creating the key at 1; the 24-hour TTL
set on first increment is not modelled. -/
def incrGlobalSkips (t : Nat) (gs : List (Nat × Nat)) : List (Nat × Nat) :=
  match alookup t gs with
  | none => (t, 1) :: gs
  | some n => aset t (n + 1) gs

/-- The ledger part of a skip (src/middleware/app.py lines 690-721):
flip the matching assigned rows to skipped with the stored reason and,
when both rows exist, bump total_tasks_skipped on the aggregate row. -/
def skipLedger (a t : Nat) (reason : String) (ss : List Session)
    (gs : List (Nat × AgentStats)) : List Session × List (Nat × AgentStats) :=
  let ms := matchingAssigned a t ss
  if ms.isEmpty then (ss, gs)
  else
    let ss2 := flipSkipped a t reason ss
    match alookup a gs with
    | some ag =>
      let ag2 : AgentStats := { ag with total_tasks_skipped := ag.total_tasks_skipped + 1 }
      (ss2, aset a ag2 gs)
    | none => (ss2, gs)

/-- skip_task (src/middleware/app.py lines 657-750): holder check, set
the per-agent cooldown key, increment the global counter, update the
ledger, delete the lock and active keys, audit.  The task is deliberately
not removed from the queue. -/
def skip_task (a t : Nat) (reason : Option String) (st : St) : SkipResult × St :=
  match alookup t st.locks with
  | none => (.forbidden, st)
  | some holder =>
    if holder = a then
      let lg := skipLedger a t (effectiveReason reason) st.sessions st.stats
      (.success,
        { st with
          skips := if (t, a) ∈ st.skips then st.skips else (t, a) :: st.skips
          globalSkips := incrGlobalSkips t st.globalSkips
          sessions := lg.1
          stats := lg.2
          locks := adel t st.locks
          active := adel a st.active
          auditSkips := (a, t) :: st.auditSkips })
    else (.forbidden, st)

/-- reset_disabled_tasks (src/middleware/app.py lines 816-853): scan the
global-skip keys and delete exactly those whose counter is at least 2,
returning how many were deleted.  The reconciliation is scheduled with
create_task only when the count is positive, so the queue is unchanged
when this returns. -/
def reset_disabled_tasks (st : St) : Nat × St :=
  ((st.globalSkips.filter (fun p => decide (2 ≤ p.2))).length,
    { st with globalSkips := st.globalSkips.filter (fun p => !decide (2 ≤ p.2)) })

/-- Outcome of the shared-secret check. -/
inductive AuthResult
  | ok
  | forbidden
deriving DecidableEq, Repr

/-- verify_tz_system (src/middleware/app.py lines 221-225): the header
value (None when absent, since auto_error is false) is compared against
the configured secret (None when the TZ_SYSTEM_API_KEY variable is
unset); any mismatch raises 403. -/
def verify_tz_system (apiKey tzKey : Option String) : AuthResult :=
  if apiKey = tzKey then .ok else .forbidden

/-- The state with every store key absent and every table empty. -/
def emptySt : St :=
  { queue := []
    memTasks := []
    completedTasks := []
    locks := []
    skips := []
    globalSkips := []
    active := []
    sessions := []
    stats := []
    annotations := []
    auditAssignments := []
    auditCompletions := []
    auditSkips := [] }

/-- A metadata environment for concrete runs: every fetch fails, so the
payload carries no duration and empty metadata. -/
def infoNone : Nat → Option Rat × String := fun _ => (none, "")

/-- A concrete state whose only coordination fact is that task 4 has
accumulated five global skips (the counter key is live). -/
def stDisabled4 : St := { emptySt with globalSkips := [(4, 5)] }

/-- A concrete state for exercising the retry loop next to a disabled
task: task 5 is queued and mirrored, task 4 is disabled. -/
def stQueued5 : St :=
  { emptySt with queue := [5], memTasks := [5], globalSkips := [(4, 5)] }

/-- The payload the engine hands out for task 5 to agent 1 under
`infoNone`. -/
def task5Data : TaskData :=
  { task_id := 5, audio_url := streamUrl 5 1, duration := none, metadata := "" }

/-- An assigned session row for agent 2 on task 9 with a two-minute
duration. -/
def sessRow9 : Session :=
  { agent_id := 2
    task_id := 9
    duration_seconds := some 120
    status := .assigned
    transcription_length := none
    skip_reason := none }

/-- A concrete state in which agent 2 holds the lock on task 9, an
assigned session row with duration 120 exists, and the agent has a fresh
aggregate row. -/
def stHolds9 : St :=
  { emptySt with
    locks := [(9, 2)]
    queue := [9]
    memTasks := [9]
    sessions := [sessRow9]
    stats := [(2, defaultStats)] }

/-- The same state with the duration of the session row missing, as
happens whenever the metadata fetch at assignment time failed. -/
def stHolds9NoDur : St :=
  { stHolds9 with sessions := [{ sessRow9 with duration_seconds := none }] }

/-- A concrete state whose global-skip table holds one counter below the
reset threshold of the code and one at the disable threshold. -/
def stCounters : St := { emptySt with globalSkips := [(7, 1), (8, 5)] }

/-- A concrete state where the store queue holds task 42 but the
in-memory mirror is empty. -/
def stStoreOnly42 : St := { emptySt with queue := [42] }

/-- A concrete state in which agent 1 has a live cached active
assignment for task 5. -/
def stActive5 : St := { emptySt with active := [(1, task5Data)] }

/-- Lookup after an overwrite at the same key. -/
theorem alookup_aset_self {β : Type} (k : Nat) (v : β) (l : List (Nat × β)) :
    alookup k (aset k v l) = some v := by
  simp [aset, alookup]

/-- Lookup after a delete at the same key. -/
theorem alookup_adel_self {β : Type} (k : Nat) (l : List (Nat × β)) :
    alookup k (adel k l) = none := by
  induction l with
  | nil => rfl
  | cons p rest ih =>
    by_cases h : p.1 = k
    · simpa [adel, h] using ih
    · simpa [adel, alookup, h] using ih

/-- Lookup after a delete at a different key. -/
theorem alookup_adel_ne {β : Type} (k a : Nat) (l : List (Nat × β)) (h : k ≠ a) :
    alookup k (adel a l) = alookup k l := by
  induction l with
  | nil => rfl
  | cons p rest ih =>
    rcases p with ⟨pk, pv⟩
    by_cases hp : pk = a
    · have hd : adel a ((pk, pv) :: rest) = adel a rest := by simp [adel, hp]
      have hl : alookup k ((pk, pv) :: rest) = alookup k rest := by
        have hne : ¬ pk = k := fun hk => h (hk ▸ hp ▸ rfl)
        simp [alookup, hne]
      rw [hd, hl, ih]
    · have hd : adel a ((pk, pv) :: rest) = (pk, pv) :: adel a rest := by simp [adel, hp]
      rw [hd]
      by_cases hk : pk = k
      · simp [alookup, hk]
      · simp [alookup, hk, ih]

/-- C1.  Each iteration of the atomic script behaves exactly as the
claim words it: pop the head (NONE on empty), DISABLED without
re-enqueue once the global skip counter reached 5, tail re-enqueue and
SKIPPED under a live per-agent cooldown, the task itself when the
conditional lock set succeeds, and tail re-enqueue with LOCKED
otherwise. -/
theorem C1_atomic_script_matches_claim (agent : Nat) (st : St) :
    luaScript agent st = engineStepClaim agent st := by
  unfold luaScript engineStepClaim
  cases st.queue with
  | nil => rfl
  | cons t rest =>
    by_cases h1 : 5 ≤ getGlobalSkips st t
    · simp [h1]
    · by_cases h2 : (t, agent) ∈ st.skips
      · simp [h1, h2]
      · cases h3 : alookup t st.locks with
        | none => simp [h1, h2, h3]
        | some b => simp [h1, h2, h3]

/-- C4.  When the lock on T is held by the submitting agent but the task
source refuses the annotation, submit returns the upstream error and the
state is untouched: the lock, the active assignment, the session rows and
the queue are exactly as before. -/
theorem C4_upstream_refusal_preserves_state (a t : Nat) (text : String) (st : St)
    (hlock : alookup t st.locks = some a) :
    submit_transcription false a t text st = (.upstreamError, st) := by
  simp [submit_transcription, hlock]

/-- C4 witness at the concrete holder state. -/
theorem C4_witness :
    alookup 9 stHolds9.locks = some 2 ∧
    submit_transcription false 2 9 "hi" stHolds9 = (.upstreamError, stHolds9) :=
  ⟨rfl, C4_upstream_refusal_preserves_state 2 9 "hi" stHolds9 rfl⟩

/-- C5.  When the lock on T is absent or held by another agent, both
submit and skip return 403 and leave the entire state unchanged, so no
annotation is recorded, no counter or cooldown moves, and no ledger row
or aggregate is touched. -/
theorem C5_non_holder_forbidden_no_effects (a t : Nat) (text : String)
    (reason : Option String) (up : Bool) (st : St)
    (h : ∀ b, alookup t st.locks = some b → b ≠ a) :
    submit_transcription up a t text st = (.forbidden, st) ∧
    skip_task a t reason st = (.forbidden, st) := by
  constructor
  · unfold submit_transcription
    cases hb : alookup t st.locks with
    | none => rfl
    | some b => simp [h b hb]
  · unfold skip_task
    cases hb : alookup t st.locks with
    | none => rfl
    | some b => simp [h b hb]

/-- C5 witness at a state with no lock at all. -/
theorem C5_witness :
    submit_transcription true 1 5 "x" emptySt = (.forbidden, emptySt) ∧
    skip_task 1 5 none emptySt = (.forbidden, emptySt) :=
  C5_non_holder_forbidden_no_effects 1 5 "x" none true emptySt
    (fun b hb => by simp [alookup, emptySt] at hb)

/-- C9.  While an active assignment for A is cached, request_task
returns it unchanged and mutates nothing, for any task-source contents
and any metadata environment; in particular two consecutive calls return
identical responses. -/
theorem C9_active_assignment_idempotent (info info2 : Nat → Option Rat × String)
    (ls ls2 : List Nat) (agent : Nat) (st : St) (d : TaskData)
    (h : alookup agent st.active = some d) :
    request_task_for_agent info ls agent st = (.ok d, st) ∧
    request_task_for_agent info2 ls2 agent st = (.ok d, st) := by
  constructor <;> simp [request_task_for_agent, h]

/-- C9 witness at the concrete cached-assignment state. -/
theorem C9_witness :
    request_task_for_agent infoNone [] 1 stActive5 = (.ok task5Data, stActive5) ∧
    request_task_for_agent infoNone [7] 1 stActive5 = (.ok task5Data, stActive5) :=
  C9_active_assignment_idempotent infoNone infoNone [] [7] 1 stActive5 task5Data rfl

/-- C10.  The shared-secret check rejects exactly when the header value
differs from the configured secret; with the secret unset and the header
absent both sides are None, which compare equal, so the request is
accepted. -/
theorem C10_auth_rejects_iff_mismatch (apiKey tzKey : Option String) :
    (verify_tz_system apiKey tzKey = .forbidden ↔ apiKey ≠ tzKey) ∧
    verify_tz_system none none = .ok := by
  refine ⟨?_, rfl⟩
  unfold verify_tz_system
  by_cases h : apiKey = tzKey <;> simp [h]

/-- C2 counterexample.  Task 4 is disabled (counter at 5, live), yet one
reconciliation run re-enqueues it: the claim that the reconciler never
re-enqueues such a task is false, because the rebuild filters only by the
completed set. -/
theorem C2_counterexample_reconciler_reenqueues :
    5 ≤ getGlobalSkips stDisabled4 4 ∧ 4 ∉ stDisabled4.queue ∧
    4 ∈ (sync_assignment_queue [4] stDisabled4).queue := by decide

/-- C6 counterexample.  A submit whose session row has a null duration
succeeds and flips the row to completed, but the aggregate is not touched
at all, so total_tasks_completed (still 0) no longer equals the number of
completed ledger rows (1). -/
theorem C6_counterexample_null_duration :
    (submit_transcription true 2 9 "hi" stHolds9NoDur).1 = .success ∧
    alookup 2 (submit_transcription true 2 9 "hi" stHolds9NoDur).2.stats =
      some defaultStats ∧
    ((submit_transcription true 2 9 "hi" stHolds9NoDur).2.sessions.filter
      (fun s => decide (s.agent_id = 2) && decide (s.status = SessStatus.completed))).length
      = 1 ∧
    defaultStats.total_tasks_completed = 0 := by decide

/-- C7.  Evaluating the reset handler at a failing input: the counter at
1 survives the reset (only counters of 2 or more are deleted) and the
reset count comes back 0 for it, contradicting the stated contract that
every global-skip key is deleted regardless of value.  The counter at 5
is deleted, so no task stays disabled. -/
theorem C7_reset_keeps_low_counters :
    reset_disabled_tasks stCounters = (1, { emptySt with globalSkips := [(7, 1)] }) ∧
    getGlobalSkips (reset_disabled_tasks stCounters).2 7 = 1 := by decide

/-- C8 counterexample.  The store queue holds assignable task 42 (no
lock, no cooldown, no skips), yet the handler returns the distinguished
empty-queue 404: emptiness is decided from the in-memory mirror before
the loop, and the forced reconciliation even wipes the store queue. -/
theorem C8_counterexample_store_nonempty_gets_empty404 :
    stStoreOnly42.queue = [42] ∧ alookup 42 stStoreOnly42.locks = none ∧
    (42, 1) ∉ stStoreOnly42.skips ∧ getGlobalSkips stStoreOnly42 42 = 0 ∧
    (request_task_for_agent infoNone [] 1 stStoreOnly42).1 = .emptyQueue404 := by decide

/-- getGlobalSkips only reads the global-skip table. -/
theorem getGlobalSkips_ext (st st2 : St) (t : Nat)
    (h : st.globalSkips = st2.globalSkips) :
    getGlobalSkips st t = getGlobalSkips st2 t := by
  unfold getGlobalSkips; rw [h]

/-- The atomic script touches only the queue and the lock table. -/
theorem luaScript_preserves (agent : Nat) (st : St) :
    ((luaScript agent st).2).globalSkips = st.globalSkips ∧
    ((luaScript agent st).2).memTasks = st.memTasks ∧
    ((luaScript agent st).2).completedTasks = st.completedTasks ∧
    ((luaScript agent st).2).active = st.active := by
  unfold luaScript
  cases hq : st.queue with
  | nil => simp
  | cons t rest =>
    by_cases h1 : 5 ≤ getGlobalSkips st t
    · simp [h1]
    · by_cases h2 : (t, agent) ∈ st.skips
      · simp [h1, h2]
      · cases h3 : alookup t st.locks <;> simp [h1, h2, h3]

/-- A task handed out by the atomic script was the queue head and its
global skip counter was below 5. -/
theorem luaScript_task_inv (agent u : Nat) (st st2 : St)
    (h : luaScript agent st = (.task u, st2)) :
    u ∈ st.queue ∧ getGlobalSkips st u < 5 := by
  unfold luaScript at h
  cases hq : st.queue with
  | nil => rw [hq] at h; simp at h
  | cons t rest =>
    rw [hq] at h
    by_cases h1 : 5 ≤ getGlobalSkips st t
    · simp [h1] at h
    · by_cases h2 : (t, agent) ∈ st.skips
      · simp [h1, h2] at h
      · cases h3 : alookup t st.locks with
        | some b => simp [h1, h2, h3] at h
        | none =>
          simp [h1, h2, h3] at h
          rcases h with ⟨hu, -⟩
          subst hu
          exact ⟨List.mem_cons_self t rest, by omega⟩

/-- The atomic script never adds a fresh id to the queue: an id absent
before stays absent after. -/
theorem luaScript_queue_avoids (agent : Nat) (st : St) (t : Nat)
    (hq : t ∉ st.queue) :
    t ∉ ((luaScript agent st).2).queue := by
  unfold luaScript
  cases hqq : st.queue with
  | nil => simpa using (hqq ▸ hq)
  | cons u rest =>
    rw [hqq] at hq
    have hu : t ≠ u := fun h => hq (h ▸ List.mem_cons_self u rest)
    have hr : t ∉ rest := fun h => hq (List.mem_cons_of_mem u h)
    by_cases h1 : 5 ≤ getGlobalSkips st u
    · simpa [h1] using hr
    · by_cases h2 : (u, agent) ∈ st.skips
      · simp [h1, h2, List.mem_append, hu, hr]
      · cases h3 : alookup u st.locks with
        | some b => simp [h1, h2, h3, List.mem_append, hu, hr]
        | none => simpa [h1, h2, h3] using hr

/-- The removal pass of the refill can only shrink the mirror. -/
theorem removeEach_not_mem (ids mem : List Nat) (t : Nat) (h : t ∉ mem) :
    t ∉ (removeEach ids mem).1 := by
  induction ids generalizing mem with
  | nil => exact h
  | cons x xs ih =>
    unfold removeEach
    split
    · exact ih _ (fun hc => h (List.erase_subset x mem hc))
    · exact h

/-- The refill touches only the queue and the mirror. -/
theorem refillStep_preserves (avail : List Nat) (st : St) :
    ((refillStep avail st).1).globalSkips = st.globalSkips ∧
    ((refillStep avail st).1).completedTasks = st.completedTasks ∧
    ((refillStep avail st).1).active = st.active ∧
    ((refillStep avail st).1).locks = st.locks ∧
    ((refillStep avail st).1).skips = st.skips := by
  unfold refillStep
  split
  · rcases hre : removeEach (avail.take 10) st.memTasks with ⟨mem2, ok⟩
    cases ok <;> simp [hre] <;> split <;> simp
  · simp

/-- An id outside the queue, the mirror and the snapshot stays outside
the queue and the mirror across a refill. -/
theorem refillStep_avoids (avail : List Nat) (st : St) (t : Nat)
    (hq : t ∉ st.queue) (hm : t ∉ st.memTasks) (ha : t ∉ avail) :
    t ∉ ((refillStep avail st).1).queue ∧ t ∉ ((refillStep avail st).1).memTasks := by
  have hids : t ∉ avail.take 10 := fun hc => ha (List.take_subset 10 avail hc)
  unfold refillStep
  split
  · rcases hre : removeEach (avail.take 10) st.memTasks with ⟨mem2, ok⟩
    have hm2 : t ∉ mem2 := by
      have := removeEach_not_mem (avail.take 10) st.memTasks t hm
      rw [hre] at this; exact this
    cases ok
    · simp [hre]; exact ⟨hq, hm2⟩
    · simp only [hre]
      split
      · refine ⟨?_, hm2⟩
        intro hc
        rcases List.mem_append.mp hc with hc | hc
        · exact hq hc
        · exact hids hc
      · exact ⟨hq, hm2⟩
  · exact ⟨hq, hm⟩

/-- The retry loop never produces the empty-queue 404: that outcome is
decided before the loop, from the in-memory mirror. -/
theorem assignLoop_ne_empty404 (info : Nat → Option Rat × String) (agent : Nat)
    (avail : List Nat) (fuel : Nat) (st : St) :
    (assignLoop info agent avail fuel st).1 ≠ .emptyQueue404 := by
  induction fuel generalizing st with
  | zero => simp [assignLoop]
  | succ n ih =>
    unfold assignLoop
    rcases hr : refillStep avail st with ⟨st1, ok⟩
    cases ok
    · simp
    · rcases hs : luaScript agent st1 with ⟨res, st2⟩
      cases res <;> simp [hs, ih]

/-- Any task the retry loop hands out had a global skip counter below 5,
measured against the table at loop entry (no loop step writes it). -/
theorem assignLoop_ok_globalSkips_lt (info : Nat → Option Rat × String) (agent : Nat)
    (avail : List Nat) (fuel : Nat) (st : St) (d : TaskData)
    (h : (assignLoop info agent avail fuel st).1 = .ok d) :
    getGlobalSkips st d.task_id < 5 := by
  induction fuel generalizing st with
  | zero => simp [assignLoop] at h
  | succ n ih =>
    unfold assignLoop at h
    rcases hr : refillStep avail st with ⟨st1, ok⟩
    rw [hr] at h
    have hgs1 : getGlobalSkips st1 d.task_id = getGlobalSkips st d.task_id := by
      refine getGlobalSkips_ext _ _ _ ?_
      have := (refillStep_preserves avail st).1
      rw [hr] at this; exact this
    cases ok
    · simp at h
    · dsimp only at h
      rcases hs : luaScript agent st1 with ⟨res, st2⟩
      rw [hs] at h
      have hgs2 : getGlobalSkips st2 d.task_id = getGlobalSkips st1 d.task_id := by
        refine getGlobalSkips_ext _ _ _ ?_
        have := (luaScript_preserves agent st1).1
        rw [hs] at this; exact this
      cases res with
      | scriptNone => simp at h
      | wasSkipped => rw [← hgs1, ← hgs2]; exact ih st2 h
      | wasLocked => rw [← hgs1, ← hgs2]; exact ih st2 h
      | disabled => rw [← hgs1, ← hgs2]; exact ih st2 h
      | task u =>
        simp at h
        have hdu : d.task_id = u := by rw [← h]; rfl
        rw [← hgs1, hdu]
        exact (luaScript_task_inv agent u st1 st2 hs).2

/-- An id outside the queue, the mirror and the snapshot at loop entry
is never the task the retry loop hands out. -/
theorem assignLoop_avoids (info : Nat → Option Rat × String) (agent : Nat)
    (avail : List Nat) (fuel : Nat) (st : St) (t : Nat) (d : TaskData)
    (hq : t ∉ st.queue) (hm : t ∉ st.memTasks) (ha : t ∉ avail)
    (h : (assignLoop info agent avail fuel st).1 = .ok d) :
    d.task_id ≠ t := by
  induction fuel generalizing st with
  | zero => simp [assignLoop] at h
  | succ n ih =>
    unfold assignLoop at h
    rcases hr : refillStep avail st with ⟨st1, ok⟩
    rw [hr] at h
    have hp1 : t ∉ st1.queue ∧ t ∉ st1.memTasks := by
      have := refillStep_avoids avail st t hq hm ha
      rw [hr] at this; exact this
    cases ok
    · simp at h
    · dsimp only at h
      rcases hs : luaScript agent st1 with ⟨res, st2⟩
      rw [hs] at h
      have hq2 : t ∉ st2.queue := by
        have := luaScript_queue_avoids agent st1 t hp1.1
        rw [hs] at this; exact this
      have hm2 : t ∉ st2.memTasks := by
        have := (luaScript_preserves agent st1).2.1
        rw [hs] at this; rw [this]; exact hp1.2
      cases res with
      | scriptNone => simp at h
      | wasSkipped => exact ih st2 hq2 hm2 h
      | wasLocked => exact ih st2 hq2 hm2 h
      | disabled => exact ih st2 hq2 hm2 h
      | task u =>
        simp at h
        have hdu : d.task_id = u := by rw [← h]; rfl
        have hu : u ∈ st1.queue := (luaScript_task_inv agent u st1 st2 hs).1
        rw [hdu]
        exact fun hut => hp1.1 (hut ▸ hu)

/-- The id itself never survives an LREM 0 on itself. -/
theorem not_mem_filter_ne_self (t : Nat) (l : List Nat) :
    t ∉ l.filter (fun x => !decide (x = t)) := by
  intro hc
  have := (List.mem_filter.mp hc).2
  simp at this

/-- Set insertion contains the inserted id. -/
theorem mem_insertNat_self (t : Nat) (l : List Nat) : t ∈ insertNat t l := by
  unfold insertNat
  split
  · assumption
  · exact List.mem_cons_self t l

/-- Erasing the only occurrence removes the id entirely. -/
theorem not_mem_erase_of_count_le_one (t : Nat) (l : List Nat) (h : l.count t ≤ 1) :
    t ∉ l.erase t := by
  have hce := List.count_erase_self t l
  have h0 : (l.erase t).count t = 0 := by omega
  exact List.count_eq_zero.mp h0

/-- A completed id is filtered out of every reconciliation rebuild. -/
theorem not_mem_freshIds (ls : List Nat) (st : St) (t : Nat)
    (h : t ∈ st.completedTasks) : t ∉ freshIds ls st := by
  intro hc
  have hb := (List.mem_filter.mp hc).2
  simp at hb
  exact hb h

/-- Whatever path request_task takes past the active-assignment check,
a returned task had a global skip counter below 5 in the entry state. -/
theorem request_ok_not_disabled (info : Nat → Option Rat × String) (ls : List Nat)
    (agent : Nat) (st : St) (d : TaskData)
    (ha : alookup agent st.active = none)
    (h : (request_task_for_agent info ls agent st).1 = .ok d) :
    getGlobalSkips st d.task_id < 5 := by
  unfold request_task_for_agent at h
  rw [ha] at h
  dsimp only at h
  split at h
  · split at h
    · split at h
      · simp at h
      · split at h
        · simp at h
        · have hres := assignLoop_ok_globalSkips_lt info agent _ 50 _ d h
          exact hres
    · have hres := assignLoop_ok_globalSkips_lt info agent _ 50 _ d h
      exact hres
  · have hres := assignLoop_ok_globalSkips_lt info agent _ 50 _ d h
    exact hres

/-- An id that is out of the queue, out of the mirror and in the
completed set, and that no live active assignment references, is never
returned by request_task. -/
theorem request_avoids_completed (info : Nat → Option Rat × String) (ls : List Nat)
    (agent t : Nat) (st : St) (d : TaskData)
    (hq : t ∉ st.queue) (hm : t ∉ st.memTasks) (hc : t ∈ st.completedTasks)
    (ha : ∀ d0, alookup agent st.active = some d0 → d0.task_id ≠ t)
    (h : (request_task_for_agent info ls agent st).1 = .ok d) :
    d.task_id ≠ t := by
  cases hac : alookup agent st.active with
  | some d0 =>
    have heq : (request_task_for_agent info ls agent st).1 = .ok d0 := by
      unfold request_task_for_agent; rw [hac]
    rw [heq] at h
    simp at h
    rw [← h]
    exact ha d0 hac
  | none =>
    unfold request_task_for_agent at h
    rw [hac] at h
    dsimp only at h
    have hsq : t ∉ (sync_assignment_queue ls st).queue := not_mem_freshIds ls st t hc
    have hsm : t ∉ (sync_assignment_queue ls st).memTasks := not_mem_freshIds ls st t hc
    have hsq2 : t ∉ (sync_assignment_queue ls (sync_assignment_queue ls st)).queue :=
      not_mem_freshIds ls (sync_assignment_queue ls st) t hc
    have hsm2 : t ∉ (sync_assignment_queue ls (sync_assignment_queue ls st)).memTasks :=
      not_mem_freshIds ls (sync_assignment_queue ls st) t hc
    split at h
    · split at h
      · split at h
        · simp at h
        · split at h
          · simp at h
          · exact assignLoop_avoids info agent _ 50 _ t d hsq2 hsm2 hsm2 h
      · exact assignLoop_avoids info agent _ 50 _ t d hsq hsm hsm h
    · exact assignLoop_avoids info agent _ 50 _ t d hq hm hm h

/-- On the holder path with a 2xx from the task source, submit reduces
to its success shape: record the annotation, update the ledger, drop the
lock and active keys, audit, and remove the task from the queue. -/
theorem submit_success_shape (a t : Nat) (text : String) (st : St)
    (hlock : alookup t st.locks = some a) :
    submit_transcription true a t text st = (.success, remove_task_from_queue t
      { st with
        annotations := (t, text) :: st.annotations
        sessions := (submitLedger a t text.length st.sessions st.stats).1
        stats := (submitLedger a t text.length st.sessions st.stats).2
        locks := adel t st.locks
        active := adel a st.active
        auditCompletions := (a, t) :: st.auditCompletions }) := by
  unfold submit_transcription
  rw [hlock]
  simp

/-- C2 amended.  While GlobalSkipCount(T) is at 5 or more, request_task
never returns T to any agent whose cached active assignment does not
already reference T; the reconciler, however, does re-enqueue T (see the
counterexample), relying on the atomic script to drop it at pop time. -/
theorem C2_amended_disabled_not_returned (info : Nat → Option Rat × String)
    (ls : List Nat) (agent t : Nat) (st : St) (d : TaskData)
    (hdis : 5 ≤ getGlobalSkips st t)
    (hact : ∀ d0, alookup agent st.active = some d0 → d0.task_id ≠ t)
    (hres : (request_task_for_agent info ls agent st).1 = .ok d) :
    d.task_id ≠ t := by
  cases ha : alookup agent st.active with
  | some d0 =>
    have heq : (request_task_for_agent info ls agent st).1 = .ok d0 := by
      unfold request_task_for_agent; rw [ha]
    rw [heq] at hres
    simp at hres
    rw [← hres]
    exact hact d0 ha
  | none =>
    intro hdt
    have hlt := request_ok_not_disabled info ls agent st d ha hres
    rw [hdt] at hlt
    omega

/-- C2 amended witness: with task 4 disabled and task 5 queued, agent 1
is handed task 5, not task 4. -/
theorem C2_amended_witness :
    5 ≤ getGlobalSkips stQueued5 4 ∧ task5Data.task_id ≠ 4 :=
  ⟨by decide,
    C2_amended_disabled_not_returned infoNone [] 1 4 stQueued5 task5Data (by decide)
      (fun d0 h => by simp [stQueued5, emptySt, alookup] at h) rfl⟩

/-- C3.  A successful submit removes T from the store queue and the
in-memory mirror and adds it to the completed set, and a subsequent
request_task by any agent does not return T.  The mirror is assumed to
hold T at most once (the data-model invariant that a task id appears at
most once per queue); the caller of the later request is assumed not to
already hold a cached active assignment referencing T, which the lock
invariant guarantees since A holds Lock(T). -/
theorem C3_submit_removes_and_excludes (a t : Nat) (text : String) (st : St)
    (info : Nat → Option Rat × String) (ls : List Nat) (b : Nat) (d : TaskData)
    (hlock : alookup t st.locks = some a)
    (hcount : st.memTasks.count t ≤ 1)
    (hact : ∀ c d0, c ≠ a → alookup c st.active = some d0 → d0.task_id ≠ t) :
    (submit_transcription true a t text st).1 = .success ∧
    t ∉ (submit_transcription true a t text st).2.queue ∧
    t ∉ (submit_transcription true a t text st).2.memTasks ∧
    t ∈ (submit_transcription true a t text st).2.completedTasks ∧
    ((request_task_for_agent info ls b (submit_transcription true a t text st).2).1 = .ok d →
      d.task_id ≠ t) := by
  rw [submit_success_shape a t text st hlock]
  refine ⟨rfl, ?_, ?_, ?_, ?_⟩
  · exact not_mem_filter_ne_self t _
  · exact not_mem_erase_of_count_le_one t _ hcount
  · exact mem_insertNat_self t _
  · intro hreq
    refine request_avoids_completed info ls b t _ d ?_ ?_ ?_ ?_ hreq
    · exact not_mem_filter_ne_self t _
    · exact not_mem_erase_of_count_le_one t _ hcount
    · exact mem_insertNat_self t _
    · intro d0 hd0
      by_cases hba : b = a
      · rw [hba] at hd0
        have : alookup a (adel a st.active) = none := alookup_adel_self a st.active
        rw [show alookup a (remove_task_from_queue t
            { st with
              annotations := (t, text) :: st.annotations
              sessions := (submitLedger a t text.length st.sessions st.stats).1
              stats := (submitLedger a t text.length st.sessions st.stats).2
              locks := adel t st.locks
              active := adel a st.active
              auditCompletions := (a, t) :: st.auditCompletions }).active =
          alookup a (adel a st.active) from rfl] at hd0
        rw [this] at hd0
        cases hd0
      · rw [show alookup b (remove_task_from_queue t
            { st with
              annotations := (t, text) :: st.annotations
              sessions := (submitLedger a t text.length st.sessions st.stats).1
              stats := (submitLedger a t text.length st.sessions st.stats).2
              locks := adel t st.locks
              active := adel a st.active
              auditCompletions := (a, t) :: st.auditCompletions }).active =
          alookup b (adel a st.active) from rfl] at hd0
        rw [alookup_adel_ne b a st.active hba] at hd0
        exact hact b d0 hba hd0

/-- C3 witness: agent 2 submits task 9, after which task 9 is gone from
both queues, sits in the completed set, and a request by agent 3 cannot
return it. -/
theorem C3_witness :
    (submit_transcription true 2 9 "hi" stHolds9).1 = .success ∧
    9 ∉ (submit_transcription true 2 9 "hi" stHolds9).2.queue ∧
    9 ∉ (submit_transcription true 2 9 "hi" stHolds9).2.memTasks ∧
    9 ∈ (submit_transcription true 2 9 "hi" stHolds9).2.completedTasks ∧
    ((request_task_for_agent infoNone [9] 3 (submit_transcription true 2 9 "hi" stHolds9).2).1 =
        .ok task5Data → task5Data.task_id ≠ 9) :=
  C3_submit_removes_and_excludes 2 9 "hi" stHolds9 infoNone [9] 3 task5Data rfl (by decide)
    (fun c d0 hc hd0 => by simp [stHolds9, emptySt, alookup] at hd0)

/-- C6 amended.  When the submitting agent has an aggregate row and the
(unique) matching assigned session row carries a non-null nonzero
duration, the aggregate is bumped exactly as the claim states: +1
completed task, +duration seconds, +(duration/60) times the configured
$0.45 rate; with a null or zero duration, or without an aggregate row,
the session is still completed but no aggregate field changes (see the
counterexample), so the completed count can drift below the number of
completed ledger rows. -/
theorem C6_amended_aggregate_update (a t : Nat) (text : String) (st : St)
    (S : AgentStats) (s0 : Session) (dr : Rat)
    (hlock : alookup t st.locks = some a)
    (hmatch : matchingAssigned a t st.sessions = [s0])
    (hS : alookup a st.stats = some S)
    (hdur : s0.duration_seconds = some dr) (hdz : dr ≠ 0) :
    (submit_transcription true a t text st).1 = .success ∧
    alookup a (submit_transcription true a t text st).2.stats =
      some { S with
             total_duration_seconds := S.total_duration_seconds + dr
             total_tasks_completed := S.total_tasks_completed + 1
             total_earnings := S.total_earnings + dr / 60 * ratePerMinute } := by
  rw [submit_success_shape a t text st hlock]
  refine ⟨rfl, ?_⟩
  show alookup a (submitLedger a t text.length st.sessions st.stats).2 = _
  unfold submitLedger
  rw [hmatch]
  simp [hS, hdur, hdz, alookup_aset_self]

/-- C6 amended witness at the concrete two-minute session state. -/
theorem C6_amended_witness :
    (submit_transcription true 2 9 "hi" stHolds9).1 = .success ∧
    alookup 2 (submit_transcription true 2 9 "hi" stHolds9).2.stats =
      some { defaultStats with
             total_duration_seconds := defaultStats.total_duration_seconds + 120
             total_tasks_completed := defaultStats.total_tasks_completed + 1
             total_earnings := defaultStats.total_earnings + 120 / 60 * ratePerMinute } :=
  C6_amended_aggregate_update 2 9 "hi" stHolds9 defaultStats sessRow9 120 rfl rfl rfl rfl
    (by norm_num)

/-- C8 amended.  Past the active-assignment check, the handler returns
the distinguished empty-queue 404 exactly when the in-memory mirror is
empty and the reconciliation rebuild is empty too (the unlabeled list
minus the completed set); the retry loop itself never produces that
outcome, and the store queue contents are irrelevant to it. -/
theorem C8_amended_empty404_iff (info : Nat → Option Rat × String) (ls : List Nat)
    (agent : Nat) (st : St) (hact : alookup agent st.active = none) :
    ((request_task_for_agent info ls agent st).1 = .emptyQueue404 ↔
      (st.memTasks = [] ∧ freshIds ls st = [])) := by
  unfold request_task_for_agent
  rw [hact]
  dsimp only
  by_cases hm : st.memTasks.isEmpty
  · rw [if_pos hm]
    have hmem : st.memTasks = [] := List.isEmpty_iff.mp hm
    by_cases hf : (sync_assignment_queue ls st).memTasks.isEmpty
    · rw [if_pos hf]
      have hfe : freshIds ls st = [] := List.isEmpty_iff.mp hf
      by_cases hl : ls.isEmpty
      · rw [if_pos hl]
        simp [hmem, hfe]
      · rw [if_neg hl]
        have hf2 : (sync_assignment_queue ls (sync_assignment_queue ls st)).memTasks.isEmpty := hf
        rw [if_pos hf2]
        simp [hmem, hfe]
    · rw [if_neg hf]
      constructor
      · intro hcon; exact absurd hcon (assignLoop_ne_empty404 info agent _ 50 _)
      · intro hcon
        refine absurd ?_ hf
        show (freshIds ls st).isEmpty
        rw [hcon.2]
        rfl
  · rw [if_neg hm]
    constructor
    · intro hcon; exact absurd hcon (assignLoop_ne_empty404 info agent _ 50 _)
    · intro hcon
      refine absurd ?_ hm
      rw [hcon.1]
      rfl

/-- C8 amended witness at the all-empty state. -/
theorem C8_amended_witness :
    ((request_task_for_agent infoNone [] 1 emptySt).1 = .emptyQueue404 ↔
      (emptySt.memTasks = [] ∧ freshIds [] emptySt = [])) :=
  C8_amended_empty404_iff infoNone [] 1 emptySt rfl
